import Mathlib

/-!
Verification of the extraction core of the `prefer` configuration library.

The development shallowly embeds the dynamic value tree (`ConfigValue`,
`src/prefer/src/value.rs`), the two core error kinds and the path-enrichment
helper `Error::with_key` (`src/prefer/src/error.rs`), the built-in `FromValue`
conversions, the visitor dispatch (`src/prefer/src/visitor.rs`), and the code
emitted by the `#[derive(FromValue)]` schema compiler
(`src/prefer_derive/src/lib.rs`) for representative concrete schemas.

Modelling conventions:
- Rust `i64` payloads are Lean `Int`; every narrowing conversion performs the
  same explicit range check as the corresponding `TryFrom` call, so overflow
  behaviour is modelled exactly where the code checks it.
- Rust `f64` payloads are modelled as `Rat`; the only float operations the
  verified claims touch are moving a payload unchanged and the unconditional
  `i64 as f64` widening, both of which are payload-representation independent.
- Rust `HashMap<String, ConfigValue>` objects are association lists with unique
  keys; `get` returns the first binding.  Iteration order of a `HashMap` is
  unspecified in Rust, so theorems about map traversal only ever rely on
  single-entry objects or on the head entry of the list.
- Fallible Rust functions returning `Result<T, Error>` become
  `Except Error T`.
-/

namespace Prefer

/-- Error kinds originating in the extraction core, from `Error` in
`src/prefer/src/error.rs`: `KeyNotFound(String)` and
`ConversionError { key, type_name, source }`.  The `source` cause is kept as
its message string. -/
inductive Error where
  | keyNotFound (key : String)
  | conversionError (key type_name source : String)
deriving DecidableEq, Repr

/-- `Error::with_key` (`src/prefer/src/error.rs` lines 121-134): if the error
is a `ConversionError`, replace its key with the given one; otherwise return
the error unchanged. -/
def Error.with_key : Error → String → Error
  | .conversionError _ type_name source, key => .conversionError key type_name source
  | e, _ => e

/-- Whether an error is the `ConversionError` variant. -/
def Error.is_conversion : Error → Bool
  | .conversionError _ _ _ => true
  | _ => false

/-- The `std::fmt::Display` rendering of the two core error kinds
(`thiserror` attributes in `src/prefer/src/error.rs`). -/
def Error.errText : Error → String
  | .keyNotFound key => "Configuration key \x27" ++ key ++ "\x27 not found"
  | .conversionError key type_name source =>
      "Failed to convert value at \x27" ++ key ++ "\x27 to type " ++ type_name ++ ": " ++ source

/-- The dynamic value tree `ConfigValue` (`src/prefer/src/value.rs`): a closed
union over null, bool, 64-bit signed integer, 64-bit float, string, array and
object.  Objects are modelled as association lists with unique keys. -/
inductive ConfigValue where
  | null
  | bool (b : Bool)
  | integer (n : Int)
  | float (q : Rat)
  | string (s : String)
  | array (elems : List ConfigValue)
  | object (entries : List (String × ConfigValue))

/-- Key lookup in an object's entry list (models `HashMap::get`; keys are
unique, so first match is the match). -/
def objGet : List (String × ConfigValue) → String → Option ConfigValue
  | [], _ => none
  | (k, v) :: rest, key => if k = key then some v else objGet rest key

namespace ConfigValue

/-- `ConfigValue::is_null`. -/
def is_null : ConfigValue → Bool
  | .null => true
  | _ => false

/-- `ConfigValue::as_bool`: the boolean payload, only for `Bool` nodes. -/
def as_bool : ConfigValue → Option Bool
  | .bool b => some b
  | _ => none

/-- `ConfigValue::as_i64`: the integer payload, only for `Integer` nodes. -/
def as_i64 : ConfigValue → Option Int
  | .integer n => some n
  | _ => none

/-- `ConfigValue::as_u64`: the integer payload, only for non-negative
`Integer` nodes. -/
def as_u64 : ConfigValue → Option Int
  | .integer n => if 0 ≤ n then some n else none
  | _ => none

/-- `ConfigValue::as_f64`: the float payload of a `Float` node, or an
`Integer` payload widened unconditionally. -/
def as_f64 : ConfigValue → Option Rat
  | .float q => some q
  | .integer n => some (n : Rat)
  | _ => none

/-- `ConfigValue::as_str`: the string payload, only for `String` nodes. -/
def as_str : ConfigValue → Option String
  | .string s => some s
  | _ => none

/-- `ConfigValue::as_array`: the element list, only for `Array` nodes. -/
def as_array : ConfigValue → Option (List ConfigValue)
  | .array elems => some elems
  | _ => none

/-- `ConfigValue::as_object`: the entry list, only for `Object` nodes. -/
def as_object : ConfigValue → Option (List (String × ConfigValue))
  | .object entries => some entries
  | _ => none

/-- `ConfigValue::get`: single-segment key lookup, `None` on non-objects. -/
def get (v : ConfigValue) (key : String) : Option ConfigValue :=
  (v.as_object).bind (fun obj => objGet obj key)

/-- `ConfigValue::type_name`: the human-readable kind name. -/
def type_name : ConfigValue → String
  | .null => "null"
  | .bool _ => "boolean"
  | .integer _ => "integer"
  | .float _ => "float"
  | .string _ => "string"
  | .array _ => "array"
  | .object _ => "object"

/-- `impl From<bool> for ConfigValue`. -/
def ofBool (v : Bool) : ConfigValue := .bool v

/-- `impl From<i64> for ConfigValue`. -/
def ofI64 (v : Int) : ConfigValue := .integer v

/-- `impl From<i32> for ConfigValue` (widens to the 64-bit payload). -/
def ofI32 (v : Int) : ConfigValue := .integer v

/-- `impl From<f64> for ConfigValue`. -/
def ofF64 (q : Rat) : ConfigValue := .float q

/-- `impl From<String> for ConfigValue`. -/
def ofString (s : String) : ConfigValue := .string s

end ConfigValue

/-- `impl FromValue for bool`: exact kind match via `as_bool`. -/
def boolFromValue (value : ConfigValue) : Except Error Bool :=
  match value.as_bool with
  | some b => .ok b
  | none => .error (.conversionError "" "bool" ("expected boolean, found " ++ value.type_name))

/-- `impl FromValue for i8`: `as_i64` then `i8::try_from`. -/
def i8FromValue (value : ConfigValue) : Except Error Int :=
  match (value.as_i64).bind (fun n => if -128 ≤ n ∧ n ≤ 127 then some n else none) with
  | some n => .ok n
  | none => .error (.conversionError "" "i8" ("expected i8, found " ++ value.type_name))

/-- `impl FromValue for i16`: `as_i64` then `i16::try_from`. -/
def i16FromValue (value : ConfigValue) : Except Error Int :=
  match (value.as_i64).bind (fun n => if -32768 ≤ n ∧ n ≤ 32767 then some n else none) with
  | some n => .ok n
  | none => .error (.conversionError "" "i16" ("expected i16, found " ++ value.type_name))

/-- `impl FromValue for i32`: `as_i64` then `i32::try_from`. -/
def i32FromValue (value : ConfigValue) : Except Error Int :=
  match (value.as_i64).bind
      (fun n => if -2147483648 ≤ n ∧ n ≤ 2147483647 then some n else none) with
  | some n => .ok n
  | none => .error (.conversionError "" "i32" ("expected i32, found " ++ value.type_name))

/-- `impl FromValue for i64`: the payload of an `Integer` node. -/
def i64FromValue (value : ConfigValue) : Except Error Int :=
  match value.as_i64 with
  | some n => .ok n
  | none => .error (.conversionError "" "i64" ("expected i64, found " ++ value.type_name))

/-- `impl FromValue for u8`: `as_u64` then `u8::try_from`. -/
def u8FromValue (value : ConfigValue) : Except Error Int :=
  match (value.as_u64).bind (fun n => if n ≤ 255 then some n else none) with
  | some n => .ok n
  | none => .error (.conversionError "" "u8" ("expected u8, found " ++ value.type_name))

/-- `impl FromValue for u16`: `as_u64` then `u16::try_from`. -/
def u16FromValue (value : ConfigValue) : Except Error Int :=
  match (value.as_u64).bind (fun n => if n ≤ 65535 then some n else none) with
  | some n => .ok n
  | none => .error (.conversionError "" "u16" ("expected u16, found " ++ value.type_name))

/-- `impl FromValue for u32`: `as_u64` then `u32::try_from`. -/
def u32FromValue (value : ConfigValue) : Except Error Int :=
  match (value.as_u64).bind (fun n => if n ≤ 4294967295 then some n else none) with
  | some n => .ok n
  | none => .error (.conversionError "" "u32" ("expected u32, found " ++ value.type_name))

/-- `impl FromValue for u64`: `as_u64` (non-negative `Integer`). -/
def u64FromValue (value : ConfigValue) : Except Error Int :=
  match value.as_u64 with
  | some n => .ok n
  | none => .error (.conversionError "" "u64" ("expected u64, found " ++ value.type_name))

/-- `impl FromValue for f64`: `as_f64` (accepts `Float`, widens `Integer`). -/
def f64FromValue (value : ConfigValue) : Except Error Rat :=
  match value.as_f64 with
  | some q => .ok q
  | none => .error (.conversionError "" "f64" ("expected f64, found " ++ value.type_name))

/-- `impl FromValue for String`: exact kind match via `as_str`. -/
def stringFromValue (value : ConfigValue) : Except Error String :=
  match value.as_str with
  | some s => .ok s
  | none => .error (.conversionError "" "String" ("expected string, found " ++ value.type_name))

/-- Element loop of `impl<T: FromValue> FromValue for Vec<T>`: each element is
converted with `fv`; a failing element's error is passed through
`with_key("[i]")` for its index `i`; collection stops at the first error. -/
def vecElems (fv : ConfigValue → Except Error α) : Nat → List ConfigValue → Except Error (List α)
  | _, [] => .ok []
  | i, x :: xs =>
    match (fv x).mapError (fun e => e.with_key ("[" ++ toString i ++ "]")) with
    | .error e => .error e
    | .ok a => (vecElems fv (i + 1) xs).map (fun rest => a :: rest)

/-- `impl<T: FromValue> FromValue for Vec<T>` (`src/prefer/src/value.rs`
lines 472-485): requires an `Array`, then converts the elements in order. -/
def vecFromValue (fv : ConfigValue → Except Error α) (value : ConfigValue) :
    Except Error (List α) :=
  match value.as_array with
  | some arr => vecElems fv 0 arr
  | none => .error (.conversionError "" "Vec" ("expected array, found " ++ value.type_name))

/-- `impl<T: FromValue> FromValue for Option<T>`: `Null` becomes `none`, any
other node is converted by `fv` and wrapped in `some`. -/
def optionFromValue (fv : ConfigValue → Except Error α) (value : ConfigValue) :
    Except Error (Option α) :=
  if value.is_null then .ok none else (fv value).map some

/-- Entry loop of `impl<K, V> FromValue for HashMap<K, V>`: each entry's key
is converted from its `String` representation by `fvK` (the resulting error,
if any, is returned as-is), each entry's value is converted by `fvV` with a
failing value's error passed through `with_key(k)`. -/
def hashMapEntries (fvK : ConfigValue → Except Error κ) (fvV : ConfigValue → Except Error α) :
    List (String × ConfigValue) → Except Error (List (κ × α))
  | [] => .ok []
  | (k, v) :: rest => do
    let key ← fvK (.string k)
    let val ← (fvV v).mapError (fun e => e.with_key k)
    let tail ← hashMapEntries fvK fvV rest
    return (key, val) :: tail

/-- `impl<K, V> FromValue for HashMap<K, V>` (`src/prefer/src/value.rs`
lines 497-518): requires an `Object`, then converts the entries.  The result
is kept as the list of converted entries in traversal order. -/
def hashMapFromValue (fvK : ConfigValue → Except Error κ) (fvV : ConfigValue → Except Error α)
    (value : ConfigValue) : Except Error (List (κ × α)) :=
  match value.as_object with
  | some obj => hashMapEntries fvK fvV obj
  | none => .error (.conversionError "" "HashMap" ("expected object, found " ++ value.type_name))

/-!
Schema-compiler output (`src/prefer_derive/src/lib.rs`).  The derive macro
emits, per struct, `value.as_object().ok_or(ConversionError { key: "",
type_name, source: "expected object" })?` followed by one extraction
expression per field.  The per-field templates are captured by the
combinators below, and representative concrete schemas instantiate them.
-/

/-- The struct/enum preamble: `value.as_object().ok_or_else(|| ConversionError
{ key: String::new(), type_name, source: "expected object" })?`. -/
def asObjectNamed (value : ConfigValue) (type_name : String) :
    Except Error (List (String × ConfigValue)) :=
  match value.as_object with
  | some obj => .ok obj
  | none => .error (.conversionError "" type_name "expected object")

/-- Field template for a plain non-`Option` field without attributes
(`derive_struct`, lines 256-262), also used for `required` fields:
`from_value(obj.get(key).ok_or_else(|| KeyNotFound(key))?)
  .map_err(|e| e.with_key(key))?`.  An absent key yields `KeyNotFound(key)`
directly (not routed through `with_key`); a conversion failure of the present
value has its path key overwritten with this field's key. -/
def extractField (obj : List (String × ConfigValue)) (key : String)
    (fv : ConfigValue → Except Error α) : Except Error α :=
  match objGet obj key with
  | none => .error (.keyNotFound key)
  | some v => (fv v).mapError (fun e => e.with_key key)

/-- Field template for an `Option`-typed field without attributes
(`derive_struct`, lines 248-255):
`obj.get(key).map(from_value).transpose().map_err(with_key(key))?.flatten()`. -/
def extractOptionField (obj : List (String × ConfigValue)) (key : String)
    (fv : ConfigValue → Except Error α) : Except Error (Option α) :=
  match objGet obj key with
  | none => .ok none
  | some v => (optionFromValue fv v).mapError (fun e => e.with_key key)

/-- Field template for a field with a `default` attribute (`derive_struct`,
lines 227-246): absent key yields the default expression (the field type's
`Default::default()` for a bare `default`, the macro-emitted literal
expression for `default = "<literal>"`); a present key is extracted normally
with the error path key overwritten by this field's key. -/
def extractDefaultField (obj : List (String × ConfigValue)) (key : String)
    (fv : ConfigValue → Except Error α) (dflt : α) : Except Error α :=
  match objGet obj key with
  | none => .ok dflt
  | some v => (fv v).mapError (fun e => e.with_key key)

/-- Field template used inside internally-tagged enum variant bodies
(`derive_enum`, lines 348-352): like the struct template but WITHOUT the
`map_err(with_key)` enrichment. -/
def enumVariantField (obj : List (String × ConfigValue)) (key : String)
    (fv : ConfigValue → Except Error α) : Except Error α :=
  match objGet obj key with
  | none => .error (.keyNotFound key)
  | some v => fv v

/-- Tag read of an internally-tagged enum (`derive_enum`, lines 390-396):
`obj.get(tag_field).and_then(|v| v.as_str()).ok_or_else(|| ConversionError {
key: tag_field, type_name, source: "missing or invalid tag field" })?`. -/
def tagOf (obj : List (String × ConfigValue)) (tag_field type_name : String) :
    Except Error String :=
  match (objGet obj tag_field).bind ConfigValue.as_str with
  | some t => .ok t
  | none => .error (.conversionError tag_field type_name "missing or invalid tag field")

/-- The `i64 as u16` wrapping cast used by the expression that
`generate_default_expr` emits for an integer literal on a `u16` field. -/
def u16Cast (n : Int) : Int := n.emod 65536

/-- Concrete schema for the path-tracking claims: `struct Server { port: u16 }`
with no field attributes. -/
structure Server where
  port : Int

/-- The derived `FromValue` for `Server`. -/
def Server.fromValue (value : ConfigValue) : Except Error Server := do
  let obj ← asObjectNamed value "Server"
  let port ← extractField obj "port" u16FromValue
  return ⟨port⟩

/-- Concrete schema `struct Database { servers: Vec<Server> }`. -/
structure Database where
  servers : List Server

/-- The derived `FromValue` for `Database`. -/
def Database.fromValue (value : ConfigValue) : Except Error Database := do
  let obj ← asObjectNamed value "Database"
  let servers ← extractField obj "servers" (vecFromValue Server.fromValue)
  return ⟨servers⟩

/-- Concrete schema `struct Root { database: Database }`. -/
structure Root where
  database : Database

/-- The derived `FromValue` for `Root`. -/
def Root.fromValue (value : ConfigValue) : Except Error Root := do
  let obj ← asObjectNamed value "Root"
  let database ← extractField obj "database" Database.fromValue
  return ⟨database⟩

/-- Concrete schema `struct HostCfg { host: String }` with no attributes. -/
structure HostCfg where
  host : String

/-- The derived `FromValue` for `HostCfg`. -/
def HostCfg.fromValue (value : ConfigValue) : Except Error HostCfg := do
  let obj ← asObjectNamed value "HostCfg"
  let host ← extractField obj "host" stringFromValue
  return ⟨host⟩

/-- Concrete schema `struct PortCfg { #[prefer(default = "8080")] port: u16 }`.
`generate_default_expr` parses the literal `"8080"` as an `i64` and emits
`8080 as _`, i.e. the wrapping cast to `u16`. -/
structure PortCfg where
  port : Int

/-- The derived `FromValue` for `PortCfg`. -/
def PortCfg.fromValue (value : ConfigValue) : Except Error PortCfg := do
  let obj ← asObjectNamed value "PortCfg"
  let port ← extractDefaultField obj "port" u16FromValue (u16Cast 8080)
  return ⟨port⟩

/-- Concrete internally-tagged enum schema (mirrors `Backend` in
`src/prefer/tests/derive_test.rs`): `#[prefer(tag = "type")]` with variant
`Postgres` renamed `"postgresql"` (fields `host: String`, `port: u16`) and
variant `Sqlite` (field `path: String`). -/
inductive Backend where
  | postgres (host : String) (port : Int)
  | sqlite (path : String)

/-- The derived `FromValue` for `Backend` (`derive_enum`, tagged branch,
lines 299-408): read the tag string, match it against each variant's key name
in declaration order (the `match` arms compile to equality tests in order),
extract the matching variant's fields from the same object, and fail with
`ConversionError { key: tag_field, type_name, source: "unknown variant: .." }`
when no variant name matches. -/
def Backend.fromValue (value : ConfigValue) : Except Error Backend := do
  let obj ← asObjectNamed value "Backend"
  let tag ← tagOf obj "type" "Backend"
  if tag = "postgresql" then do
    let host ← enumVariantField obj "host" stringFromValue
    let port ← enumVariantField obj "port" u16FromValue
    return Backend.postgres host port
  else if tag = "Sqlite" then do
    let path ← enumVariantField obj "path" stringFromValue
    return Backend.sqlite path
  else
    .error (.conversionError "type" "Backend" ("unknown variant: " ++ tag))

/-!
The untagged branch of `derive_enum` (`src/prefer_derive/src/lib.rs` lines
409-498) is NOT embedded here.  For every untagged enum with a record-style
variant it emits `from_value(inner.get(#field_key)?)?` (line 438), applying
the try operator to an `Option<&ConfigValue>` inside a function returning
`prefer::Result<Self>`, and for every untagged enum whatsoever it emits
`source: ("expected object")` (line 485) and
`source: ("no matching variant found")` (line 493), placing a `&str` where
`Box<dyn Error + Send + Sync>` (or `String` under no_std) is required.  The
emitted implementation therefore type-checks for no untagged enum, and no
runtime extraction semantics exists to embed; the repository itself never
instantiates an untagged enum (its tests and examples use only the tagged
`Backend`).
-/

/-- The visitor interface `ValueVisitor` (`src/prefer/src/visitor.rs` lines
51-160): one method per value-tree kind plus the `expecting` description.
Every method's default implementation fails with a kind-specific
"unexpected <kind>" `ConversionError` whose type name is the visitor's
`expecting()` description; implementers override only the kinds they care
about (field defaults model the trait's default method bodies). -/
structure ValueVisitor (α : Type) where
  expecting : String := "any value"
  visit_null : Unit → Except Error α :=
    fun _ => .error (.conversionError "" expecting "unexpected null")
  visit_bool : Bool → Except Error α :=
    fun _ => .error (.conversionError "" expecting "unexpected boolean")
  visit_i64 : Int → Except Error α :=
    fun _ => .error (.conversionError "" expecting "unexpected integer")
  visit_f64 : Rat → Except Error α :=
    fun _ => .error (.conversionError "" expecting "unexpected float")
  visit_str : String → Except Error α :=
    fun _ => .error (.conversionError "" expecting "unexpected string")
  visit_array : List ConfigValue → Except Error α :=
    fun _ => .error (.conversionError "" expecting "unexpected array")
  visit_map : List (String × ConfigValue) → Except Error α :=
    fun _ => .error (.conversionError "" expecting "unexpected object")

/-- The dispatch function `visit` (`src/prefer/src/visitor.rs` lines 289-299):
inspect the node's kind and call the matching visitor method. -/
def visit (value : ConfigValue) (vis : ValueVisitor α) : Except Error α :=
  match value with
  | .null => vis.visit_null ()
  | .bool b => vis.visit_bool b
  | .integer n => vis.visit_i64 n
  | .float q => vis.visit_f64 q
  | .string s => vis.visit_str s
  | .array elems => vis.visit_array elems
  | .object entries => vis.visit_map entries

/-- A visitor overriding only `visit_i64` (every other method keeps its
default), as in the spec's dispatch example. -/
def onlyI64Visitor : ValueVisitor Int :=
  { visit_i64 := fun n => .ok n }

/-!
Theorems.  Helper evaluation lemmas come first, then one theorem (plus
witness / counterexample where applicable) per claim C1-C10.
-/

/-- Reduction of a successful `Except` bind. -/
theorem exceptBind_ok (a : α) (f : α → Except Error β) :
    (Except.ok a >>= f : Except Error β) = f a := rfl

/-- Reduction of a failing `Except` bind. -/
theorem exceptBind_error (e : Error) (f : α → Except Error β) :
    (Except.error e >>= f : Except Error β) = Except.error e := rfl

/-- Reduction of a functor map over a failing `Except`. -/
theorem exceptMap_error (e : Error) (f : α → β) :
    (f <$> (Except.error e : Except Error α) : Except Error β) = Except.error e := rfl

/-- Reduction of a functor map over a successful `Except`. -/
theorem exceptMap_ok (a : α) (f : α → β) :
    (f <$> (Except.ok a : Except Error α) : Except Error β) = Except.ok (f a) := rfl

/-- Evaluation of `u8::from_value` on an `Integer` node. -/
theorem u8_int_eval (n : Int) :
    u8FromValue (.integer n) =
      if 0 ≤ n ∧ n ≤ 255 then .ok n
      else .error (.conversionError "" "u8" "expected u8, found integer") := by
  by_cases h0 : 0 ≤ n <;> by_cases h1 : n ≤ 255 <;>
    simp [u8FromValue, ConfigValue.as_u64, h0, h1] <;> rfl

/-- Evaluation of `u16::from_value` on an `Integer` node. -/
theorem u16_int_eval (n : Int) :
    u16FromValue (.integer n) =
      if 0 ≤ n ∧ n ≤ 65535 then .ok n
      else .error (.conversionError "" "u16" "expected u16, found integer") := by
  by_cases h0 : 0 ≤ n <;> by_cases h1 : n ≤ 65535 <;>
    simp [u16FromValue, ConfigValue.as_u64, h0, h1] <;> rfl

/-- Evaluation of `u32::from_value` on an `Integer` node. -/
theorem u32_int_eval (n : Int) :
    u32FromValue (.integer n) =
      if 0 ≤ n ∧ n ≤ 4294967295 then .ok n
      else .error (.conversionError "" "u32" "expected u32, found integer") := by
  by_cases h0 : 0 ≤ n <;> by_cases h1 : n ≤ 4294967295 <;>
    simp [u32FromValue, ConfigValue.as_u64, h0, h1] <;> rfl

/-- Evaluation of `i8::from_value` on an `Integer` node. -/
theorem i8_int_eval (n : Int) :
    i8FromValue (.integer n) =
      if -128 ≤ n ∧ n ≤ 127 then .ok n
      else .error (.conversionError "" "i8" "expected i8, found integer") := by
  by_cases h : -128 ≤ n ∧ n ≤ 127 <;>
    simp [i8FromValue, ConfigValue.as_i64, h] <;> rfl

/-- Evaluation of `i16::from_value` on an `Integer` node. -/
theorem i16_int_eval (n : Int) :
    i16FromValue (.integer n) =
      if -32768 ≤ n ∧ n ≤ 32767 then .ok n
      else .error (.conversionError "" "i16" "expected i16, found integer") := by
  by_cases h : -32768 ≤ n ∧ n ≤ 32767 <;>
    simp [i16FromValue, ConfigValue.as_i64, h] <;> rfl

/-- Evaluation of `i32::from_value` on an `Integer` node. -/
theorem i32_int_eval (n : Int) :
    i32FromValue (.integer n) =
      if -2147483648 ≤ n ∧ n ≤ 2147483647 then .ok n
      else .error (.conversionError "" "i32" "expected i32, found integer") := by
  by_cases h : -2147483648 ≤ n ∧ n ≤ 2147483647 <;>
    simp [i32FromValue, ConfigValue.as_i64, h] <;> rfl

/-- C6: for each integer target type narrower than the tree's 64-bit
`Integer` (`u8`, `u16`, `u32`, `i8`, `i16`, `i32`), extraction succeeds
exactly when the input is an `Integer` node whose payload lies in the target
width's range, and every other input (out-of-range or wrong kind) fails with
a `ConversionError` naming the target type; in particular
`extract::<u8>(Integer(300))` and `extract::<u8>(Integer(-1))` both fail. -/
theorem C6_narrow_integer_widths :
    (∀ v : ConfigValue,
        (∃ r, u8FromValue v = .ok r) ↔ (∃ n, v = .integer n ∧ 0 ≤ n ∧ n ≤ 255)) ∧
    (∀ v : ConfigValue, (∀ n : Int, v = .integer n → ¬(0 ≤ n ∧ n ≤ 255)) →
        u8FromValue v = .error (.conversionError "" "u8" ("expected u8, found " ++ v.type_name))) ∧
    (∀ v : ConfigValue,
        (∃ r, u16FromValue v = .ok r) ↔ (∃ n, v = .integer n ∧ 0 ≤ n ∧ n ≤ 65535)) ∧
    (∀ v : ConfigValue, (∀ n : Int, v = .integer n → ¬(0 ≤ n ∧ n ≤ 65535)) →
        u16FromValue v = .error (.conversionError "" "u16" ("expected u16, found " ++ v.type_name))) ∧
    (∀ v : ConfigValue,
        (∃ r, u32FromValue v = .ok r) ↔ (∃ n, v = .integer n ∧ 0 ≤ n ∧ n ≤ 4294967295)) ∧
    (∀ v : ConfigValue, (∀ n : Int, v = .integer n → ¬(0 ≤ n ∧ n ≤ 4294967295)) →
        u32FromValue v = .error (.conversionError "" "u32" ("expected u32, found " ++ v.type_name))) ∧
    (∀ v : ConfigValue,
        (∃ r, i8FromValue v = .ok r) ↔ (∃ n, v = .integer n ∧ -128 ≤ n ∧ n ≤ 127)) ∧
    (∀ v : ConfigValue, (∀ n : Int, v = .integer n → ¬(-128 ≤ n ∧ n ≤ 127)) →
        i8FromValue v = .error (.conversionError "" "i8" ("expected i8, found " ++ v.type_name))) ∧
    (∀ v : ConfigValue,
        (∃ r, i16FromValue v = .ok r) ↔ (∃ n, v = .integer n ∧ -32768 ≤ n ∧ n ≤ 32767)) ∧
    (∀ v : ConfigValue, (∀ n : Int, v = .integer n → ¬(-32768 ≤ n ∧ n ≤ 32767)) →
        i16FromValue v = .error (.conversionError "" "i16" ("expected i16, found " ++ v.type_name))) ∧
    (∀ v : ConfigValue,
        (∃ r, i32FromValue v = .ok r) ↔
          (∃ n, v = .integer n ∧ -2147483648 ≤ n ∧ n ≤ 2147483647)) ∧
    (∀ v : ConfigValue, (∀ n : Int, v = .integer n → ¬(-2147483648 ≤ n ∧ n ≤ 2147483647)) →
        i32FromValue v = .error (.conversionError "" "i32" ("expected i32, found " ++ v.type_name))) ∧
    u8FromValue (.integer 300) = .error (.conversionError "" "u8" "expected u8, found integer") ∧
    u8FromValue (.integer (-1)) = .error (.conversionError "" "u8" "expected u8, found integer") := by
  refine ⟨?_, ?_, ?_, ?_, ?_, ?_, ?_, ?_, ?_, ?_, ?_, ?_, ?_, ?_⟩
  · intro v
    cases v with
    | integer n =>
      rw [u8_int_eval]
      by_cases h : 0 ≤ n ∧ n ≤ 255
      · rw [if_pos h]; exact ⟨fun _ => ⟨n, rfl, h⟩, fun _ => ⟨n, rfl⟩⟩
      · rw [if_neg h]
        constructor
        · rintro ⟨r, hr⟩; exact Except.noConfusion hr
        · rintro ⟨m, hm, h0, h1⟩; injection hm with he; subst he; exact absurd ⟨h0, h1⟩ h
    | null => simp [u8FromValue, ConfigValue.as_u64]
    | bool b => simp [u8FromValue, ConfigValue.as_u64]
    | float q => simp [u8FromValue, ConfigValue.as_u64]
    | string s => simp [u8FromValue, ConfigValue.as_u64]
    | array xs => simp [u8FromValue, ConfigValue.as_u64]
    | object m => simp [u8FromValue, ConfigValue.as_u64]
  · intro v hv
    cases v with
    | integer n => rw [u8_int_eval, if_neg (hv n rfl)]; rfl
    | null => rfl
    | bool b => rfl
    | float q => rfl
    | string s => rfl
    | array xs => rfl
    | object m => rfl
  · intro v
    cases v with
    | integer n =>
      rw [u16_int_eval]
      by_cases h : 0 ≤ n ∧ n ≤ 65535
      · rw [if_pos h]; exact ⟨fun _ => ⟨n, rfl, h⟩, fun _ => ⟨n, rfl⟩⟩
      · rw [if_neg h]
        constructor
        · rintro ⟨r, hr⟩; exact Except.noConfusion hr
        · rintro ⟨m, hm, h0, h1⟩; injection hm with he; subst he; exact absurd ⟨h0, h1⟩ h
    | null => simp [u16FromValue, ConfigValue.as_u64]
    | bool b => simp [u16FromValue, ConfigValue.as_u64]
    | float q => simp [u16FromValue, ConfigValue.as_u64]
    | string s => simp [u16FromValue, ConfigValue.as_u64]
    | array xs => simp [u16FromValue, ConfigValue.as_u64]
    | object m => simp [u16FromValue, ConfigValue.as_u64]
  · intro v hv
    cases v with
    | integer n => rw [u16_int_eval, if_neg (hv n rfl)]; rfl
    | null => rfl
    | bool b => rfl
    | float q => rfl
    | string s => rfl
    | array xs => rfl
    | object m => rfl
  · intro v
    cases v with
    | integer n =>
      rw [u32_int_eval]
      by_cases h : 0 ≤ n ∧ n ≤ 4294967295
      · rw [if_pos h]; exact ⟨fun _ => ⟨n, rfl, h⟩, fun _ => ⟨n, rfl⟩⟩
      · rw [if_neg h]
        constructor
        · rintro ⟨r, hr⟩; exact Except.noConfusion hr
        · rintro ⟨m, hm, h0, h1⟩; injection hm with he; subst he; exact absurd ⟨h0, h1⟩ h
    | null => simp [u32FromValue, ConfigValue.as_u64]
    | bool b => simp [u32FromValue, ConfigValue.as_u64]
    | float q => simp [u32FromValue, ConfigValue.as_u64]
    | string s => simp [u32FromValue, ConfigValue.as_u64]
    | array xs => simp [u32FromValue, ConfigValue.as_u64]
    | object m => simp [u32FromValue, ConfigValue.as_u64]
  · intro v hv
    cases v with
    | integer n => rw [u32_int_eval, if_neg (hv n rfl)]; rfl
    | null => rfl
    | bool b => rfl
    | float q => rfl
    | string s => rfl
    | array xs => rfl
    | object m => rfl
  · intro v
    cases v with
    | integer n =>
      rw [i8_int_eval]
      by_cases h : -128 ≤ n ∧ n ≤ 127
      · rw [if_pos h]; exact ⟨fun _ => ⟨n, rfl, h⟩, fun _ => ⟨n, rfl⟩⟩
      · rw [if_neg h]
        constructor
        · rintro ⟨r, hr⟩; exact Except.noConfusion hr
        · rintro ⟨m, hm, h0, h1⟩; injection hm with he; subst he; exact absurd ⟨h0, h1⟩ h
    | null => simp [i8FromValue, ConfigValue.as_i64]
    | bool b => simp [i8FromValue, ConfigValue.as_i64]
    | float q => simp [i8FromValue, ConfigValue.as_i64]
    | string s => simp [i8FromValue, ConfigValue.as_i64]
    | array xs => simp [i8FromValue, ConfigValue.as_i64]
    | object m => simp [i8FromValue, ConfigValue.as_i64]
  · intro v hv
    cases v with
    | integer n => rw [i8_int_eval, if_neg (hv n rfl)]; rfl
    | null => rfl
    | bool b => rfl
    | float q => rfl
    | string s => rfl
    | array xs => rfl
    | object m => rfl
  · intro v
    cases v with
    | integer n =>
      rw [i16_int_eval]
      by_cases h : -32768 ≤ n ∧ n ≤ 32767
      · rw [if_pos h]; exact ⟨fun _ => ⟨n, rfl, h⟩, fun _ => ⟨n, rfl⟩⟩
      · rw [if_neg h]
        constructor
        · rintro ⟨r, hr⟩; exact Except.noConfusion hr
        · rintro ⟨m, hm, h0, h1⟩; injection hm with he; subst he; exact absurd ⟨h0, h1⟩ h
    | null => simp [i16FromValue, ConfigValue.as_i64]
    | bool b => simp [i16FromValue, ConfigValue.as_i64]
    | float q => simp [i16FromValue, ConfigValue.as_i64]
    | string s => simp [i16FromValue, ConfigValue.as_i64]
    | array xs => simp [i16FromValue, ConfigValue.as_i64]
    | object m => simp [i16FromValue, ConfigValue.as_i64]
  · intro v hv
    cases v with
    | integer n => rw [i16_int_eval, if_neg (hv n rfl)]; rfl
    | null => rfl
    | bool b => rfl
    | float q => rfl
    | string s => rfl
    | array xs => rfl
    | object m => rfl
  · intro v
    cases v with
    | integer n =>
      rw [i32_int_eval]
      by_cases h : -2147483648 ≤ n ∧ n ≤ 2147483647
      · rw [if_pos h]; exact ⟨fun _ => ⟨n, rfl, h⟩, fun _ => ⟨n, rfl⟩⟩
      · rw [if_neg h]
        constructor
        · rintro ⟨r, hr⟩; exact Except.noConfusion hr
        · rintro ⟨m, hm, h0, h1⟩; injection hm with he; subst he; exact absurd ⟨h0, h1⟩ h
    | null => simp [i32FromValue, ConfigValue.as_i64]
    | bool b => simp [i32FromValue, ConfigValue.as_i64]
    | float q => simp [i32FromValue, ConfigValue.as_i64]
    | string s => simp [i32FromValue, ConfigValue.as_i64]
    | array xs => simp [i32FromValue, ConfigValue.as_i64]
    | object m => simp [i32FromValue, ConfigValue.as_i64]
  · intro v hv
    cases v with
    | integer n => rw [i32_int_eval, if_neg (hv n rfl)]; rfl
    | null => rfl
    | bool b => rfl
    | float q => rfl
    | string s => rfl
    | array xs => rfl
    | object m => rfl
  · rfl
  · rfl

/-- C6 witness: the wrong-kind conjunct of `C6_narrow_integer_widths`
instantiated at the concrete node `String("x")`. -/
theorem C6_narrow_integer_widths_witness :
    u8FromValue (.string "x") = .error (.conversionError "" "u8" "expected u8, found string") :=
  C6_narrow_integer_widths.2.1 (.string "x") (fun _ hn => ConfigValue.noConfusion hn)

/-- C9: for the primitive target types, extracting from the value-tree node
built from a representable value returns that value.  The node builders are
the `From` impls of `src/prefer/src/value.rs` lines 180-232 (`bool`, `i64`,
`i32`, `f64`, `String`; no other primitive has a `From` impl); the remaining
integer widths are covered through the evident `Integer` embedding of their
representable values. -/
theorem C9_primitive_roundtrip :
    (∀ b : Bool, boolFromValue (ConfigValue.ofBool b) = .ok b) ∧
    (∀ s : String, stringFromValue (ConfigValue.ofString s) = .ok s) ∧
    (∀ q : Rat, f64FromValue (ConfigValue.ofF64 q) = .ok q) ∧
    (∀ n : Int, i64FromValue (ConfigValue.ofI64 n) = .ok n) ∧
    (∀ n : Int, -2147483648 ≤ n → n ≤ 2147483647 →
        i32FromValue (ConfigValue.ofI32 n) = .ok n) ∧
    (∀ n : Int, 0 ≤ n → n ≤ 255 → u8FromValue (.integer n) = .ok n) ∧
    (∀ n : Int, 0 ≤ n → n ≤ 65535 → u16FromValue (.integer n) = .ok n) ∧
    (∀ n : Int, 0 ≤ n → n ≤ 4294967295 → u32FromValue (.integer n) = .ok n) ∧
    (∀ n : Int, -128 ≤ n → n ≤ 127 → i8FromValue (.integer n) = .ok n) ∧
    (∀ n : Int, -32768 ≤ n → n ≤ 32767 → i16FromValue (.integer n) = .ok n) := by
  refine ⟨fun b => rfl, fun s => rfl, fun q => rfl, fun n => rfl, ?_, ?_, ?_, ?_, ?_, ?_⟩
  · intro n h0 h1
    rw [show ConfigValue.ofI32 n = .integer n from rfl, i32_int_eval, if_pos ⟨h0, h1⟩]
  · intro n h0 h1; rw [u8_int_eval, if_pos ⟨h0, h1⟩]
  · intro n h0 h1; rw [u16_int_eval, if_pos ⟨h0, h1⟩]
  · intro n h0 h1; rw [u32_int_eval, if_pos ⟨h0, h1⟩]
  · intro n h0 h1; rw [i8_int_eval, if_pos ⟨h0, h1⟩]
  · intro n h0 h1; rw [i16_int_eval, if_pos ⟨h0, h1⟩]

/-- C9 witness: the `u16` roundtrip conjunct instantiated at 8080. -/
theorem C9_primitive_roundtrip_witness :
    u16FromValue (.integer 8080) = .ok 8080 :=
  C9_primitive_roundtrip.2.2.2.2.2.2.1 8080 (by norm_num) (by norm_num)

/-- C7: a struct field with no attribute and a non-`Option` type whose key is
absent fails with `KeyNotFound` naming that field's resolved key; in
particular the derived struct `HostCfg { host: String }` on the empty object
fails with `KeyNotFound("host")`. -/
theorem C7_missing_key_keyNotFound :
    (∀ (α : Type) (obj : List (String × ConfigValue)) (key : String)
        (fv : ConfigValue → Except Error α), objGet obj key = none →
        extractField obj key fv = .error (.keyNotFound key)) ∧
    HostCfg.fromValue (.object []) = .error (.keyNotFound "host") :=
  ⟨fun α obj key fv h => by simp [extractField, h], rfl⟩

/-- C7 witness: the general conjunct instantiated at the empty object and key
`"host"`. -/
theorem C7_missing_key_keyNotFound_witness :
    extractField ([] : List (String × ConfigValue)) "host" stringFromValue =
      .error (.keyNotFound "host") :=
  C7_missing_key_keyNotFound.1 String [] "host" stringFromValue rfl

/-- C4: a field with `default = "<literal>"` uses the macro-generated default
expression when its key is absent and extracts normally when the key is
present; in particular the derived `PortCfg` (field `port: u16` with
`default = "8080"`) yields 8080 on the empty object and 3000 on
`Object { port: Integer(3000) }`. -/
theorem C4_default_literal_field :
    (∀ (α : Type) (obj : List (String × ConfigValue)) (key : String)
        (fv : ConfigValue → Except Error α) (dflt : α), objGet obj key = none →
        extractDefaultField obj key fv dflt = .ok dflt) ∧
    (∀ (α : Type) (obj : List (String × ConfigValue)) (key : String)
        (fv : ConfigValue → Except Error α) (dflt : α) (v : ConfigValue),
        objGet obj key = some v →
        extractDefaultField obj key fv dflt = (fv v).mapError (fun e => e.with_key key)) ∧
    PortCfg.fromValue (.object []) = .ok ⟨8080⟩ ∧
    PortCfg.fromValue (.object [("port", .integer 3000)]) = .ok ⟨3000⟩ :=
  ⟨fun α obj key fv dflt h => by simp [extractDefaultField, h],
   fun α obj key fv dflt v h => by simp [extractDefaultField, h],
   rfl, rfl⟩

/-- C4 witness: the absent-key conjunct instantiated at the empty object,
key `"port"` and the generated default expression for `"8080"`. -/
theorem C4_default_literal_field_witness :
    extractDefaultField ([] : List (String × ConfigValue)) "port" u16FromValue (u16Cast 8080) =
      .ok (u16Cast 8080) :=
  C4_default_literal_field.1 Int [] "port" u16FromValue (u16Cast 8080) rfl

/-- C5: internally tagged enum resolution on the `Backend` schema: an exact
tag match selects the variant and extracts its fields from the same object;
a tag string matching no variant fails with a `ConversionError` whose type
name is the enum's name and whose cause names the offending tag string. -/
theorem C5_tagged_enum_resolution :
    Backend.fromValue (.object [("type", .string "postgresql"), ("host", .string "h"),
        ("port", .integer 1)]) = .ok (.postgres "h" 1) ∧
    (∀ (obj : List (String × ConfigValue)) (tag : String),
        objGet obj "type" = some (.string tag) → tag ≠ "postgresql" → tag ≠ "Sqlite" →
        Backend.fromValue (.object obj) =
          .error (.conversionError "type" "Backend" ("unknown variant: " ++ tag))) ∧
    Backend.fromValue (.object [("type", .string "unknown")]) =
      .error (.conversionError "type" "Backend" "unknown variant: unknown") := by
  refine ⟨rfl, ?_, rfl⟩
  intro obj tag h hne1 hne2
  simp [Backend.fromValue, asObjectNamed, ConfigValue.as_object, tagOf, h,
    ConfigValue.as_str, hne1, hne2, exceptBind_ok, exceptBind_error]

/-- C5 witness: the unknown-tag conjunct instantiated at the tag `"mysql"`. -/
theorem C5_tagged_enum_resolution_witness :
    Backend.fromValue (.object [("type", .string "mysql")]) =
      .error (.conversionError "type" "Backend" "unknown variant: mysql") :=
  C5_tagged_enum_resolution.2.1 [("type", .string "mysql")] "mysql" rfl
    (by decide) (by decide)

/-- C10: for an internally tagged enum, an absent discriminator field, or one
present but not holding a `String` node, fails with a `ConversionError` whose
path key is the tag field name and whose cause is "missing or invalid tag
field" — never with a `KeyNotFound`. -/
theorem C10_tag_missing_or_invalid :
    ∀ (obj : List (String × ConfigValue)),
      (objGet obj "type" = none ∨
        ∃ w, objGet obj "type" = some w ∧ w.as_str = none) →
      Backend.fromValue (.object obj) =
        .error (.conversionError "type" "Backend" "missing or invalid tag field") ∧
      ∀ k, Backend.fromValue (.object obj) ≠ .error (.keyNotFound k) := by
  intro obj h
  have hb : (objGet obj "type").bind ConfigValue.as_str = none := by
    rcases h with h | ⟨w, hw, hs⟩
    · simp [h]
    · simp [hw, hs]
  have he : Backend.fromValue (.object obj) =
      .error (.conversionError "type" "Backend" "missing or invalid tag field") := by
    simp [Backend.fromValue, asObjectNamed, ConfigValue.as_object, tagOf, hb,
      exceptBind_ok, exceptBind_error]
  refine ⟨he, fun k hk => ?_⟩
  rw [he] at hk
  simp at hk

/-- C10 witness: the theorem instantiated at the empty object (tag absent). -/
theorem C10_tag_missing_or_invalid_witness :
    Backend.fromValue (.object []) =
      .error (.conversionError "type" "Backend" "missing or invalid tag field") :=
  (C10_tag_missing_or_invalid [] (Or.inl rfl)).1

/-- C8: each visitor method's default implementation fails (returns an error
rather than diverging) with a kind-specific "unexpected <kind>"
`ConversionError` whose type-name slot is the visitor's `expecting()`
description, for any such description; dispatching a visitor that overrides
only `visit_i64` against a `String` node therefore yields such an error, and
its rendered text contains the `expecting()` description. -/
theorem C8_visitor_default_methods :
    (∀ (α : Type) (e : String),
        visit .null ({ expecting := e } : ValueVisitor α) =
          .error (.conversionError "" e "unexpected null")) ∧
    (∀ (α : Type) (e : String) (b : Bool),
        visit (.bool b) ({ expecting := e } : ValueVisitor α) =
          .error (.conversionError "" e "unexpected boolean")) ∧
    (∀ (α : Type) (e : String) (n : Int),
        visit (.integer n) ({ expecting := e } : ValueVisitor α) =
          .error (.conversionError "" e "unexpected integer")) ∧
    (∀ (α : Type) (e : String) (q : Rat),
        visit (.float q) ({ expecting := e } : ValueVisitor α) =
          .error (.conversionError "" e "unexpected float")) ∧
    (∀ (α : Type) (e : String) (s : String),
        visit (.string s) ({ expecting := e } : ValueVisitor α) =
          .error (.conversionError "" e "unexpected string")) ∧
    (∀ (α : Type) (e : String) (xs : List ConfigValue),
        visit (.array xs) ({ expecting := e } : ValueVisitor α) =
          .error (.conversionError "" e "unexpected array")) ∧
    (∀ (α : Type) (e : String) (m : List (String × ConfigValue)),
        visit (.object m) ({ expecting := e } : ValueVisitor α) =
          .error (.conversionError "" e "unexpected object")) ∧
    (∀ s : String, visit (.string s) onlyI64Visitor =
        .error (.conversionError "" onlyI64Visitor.expecting "unexpected string")) ∧
    (∀ n : Int, visit (.integer n) onlyI64Visitor = .ok n) ∧
    (∃ pre post,
        Error.errText (.conversionError "" onlyI64Visitor.expecting "unexpected string") =
          pre ++ onlyI64Visitor.expecting ++ post) :=
  ⟨fun α e => rfl, fun α e b => rfl, fun α e n => rfl, fun α e q => rfl,
   fun α e s => rfl, fun α e xs => rfl, fun α e m => rfl, fun s => rfl, fun n => rfl,
   ⟨"Failed to convert value at \x27\x27 to type ", ": unexpected string", rfl⟩⟩

/-- C1 counterexample: a conversion failure three layers deep
(`database.servers[0].port`, a `String` where a `u16` is expected) reaches
the top-level caller with path key `"database"` only — each enclosing layer
overwrote the inner segment — not with the fully qualified path
`"database.servers[0].port"` the claim requires. -/
theorem C1_counterexample :
    Root.fromValue (.object [("database", .object [("servers",
        .array [.object [("port", .string "x")]])])]) =
      .error (.conversionError "database" "u16" "expected u16, found string") ∧
    "database" ≠ "database.servers[0].port" :=
  ⟨rfl, by decide⟩

/-- Reduction of `Except.mapError` on a success. -/
theorem exceptMapError_ok (a : α) (f : Error → Error) :
    Except.mapError f (.ok a : Except Error α) = .ok a := rfl

/-- Reduction of `Except.mapError` on a failure. -/
theorem exceptMapError_error (e : Error) (f : Error → Error) :
    Except.mapError f (.error e : Except Error α) = .error (f e) := rfl

/-- `with_key` leaves every non-`ConversionError` error unchanged. -/
theorem with_key_nonconv (e : Error) (seg : String) (h : e.is_conversion = false) :
    e.with_key seg = e := by
  cases e with
  | keyNotFound k => rfl
  | conversionError k t s => simp [Error.is_conversion] at h

/-- C1 amended: for the three-layer schema `Root { database: Database {
servers: Vec<Server> } }` with `Server { port: u16 }`, a conversion failure
at `servers[0].port` reaches the caller as a `ConversionError` whose path key
is exactly the outermost segment `"database"` (each enclosing layer
overwrites the inner path key) and whose target type name is preserved. -/
theorem C1_amended_outermost_segment :
    ∀ (v : ConfigValue) (k t s : String),
      u16FromValue v = .error (.conversionError k t s) →
      Root.fromValue (.object [("database", .object [("servers",
          .array [.object [("port", v)]])])]) =
        .error (.conversionError "database" t s) := by
  intro v k t s h
  simp [Root.fromValue, Database.fromValue, Server.fromValue, asObjectNamed,
    ConfigValue.as_object, extractField, objGet, vecFromValue, ConfigValue.as_array,
    vecElems, h, Error.with_key, exceptBind_ok, exceptBind_error, exceptMap_error,
    exceptMapError_ok, exceptMapError_error, Except.mapError, Except.map]

/-- C1 amended witness: the amended theorem instantiated at a `String` node
in the `port` position. -/
theorem C1_amended_outermost_segment_witness :
    Root.fromValue (.object [("database", .object [("servers",
        .array [.object [("port", .string "y")]])])]) =
      .error (.conversionError "database" "u16" "expected u16, found string") :=
  C1_amended_outermost_segment (.string "y") "" "u16" "expected u16, found string" rfl

/-- C2 counterexample: a map entry whose KEY fails to convert (extracting
`HashMap<i64, i64>` from `Object { "abc": Integer(1) }`) propagates its
`ConversionError` with the path key left empty — the enclosing map layer does
not attach the entry's key `"abc"`, contradicting the claim that every failing
map entry gets the entry's key attached. -/
theorem C2_counterexample :
    hashMapFromValue i64FromValue i64FromValue (.object [("abc", .integer 1)]) =
      .error (.conversionError "" "i64" "expected i64, found string") ∧
    ("" : String) ≠ "abc" :=
  ⟨rfl, by decide⟩

/-- A run of elements on which the element conversion succeeds contributes
its converted values and shifts the index of the remainder. -/
theorem vecElems_ok_prefix (fv : ConfigValue → Except Error α)
    (pre : List ConfigValue) (as : List α) (rest : List ConfigValue) (i : Nat)
    (h : List.Forall₂ (fun w a => fv w = .ok a) pre as) :
    vecElems fv i (pre ++ rest) =
      (vecElems fv (i + pre.length) rest).map (fun l => as ++ l) := by
  induction h generalizing i with
  | nil =>
    cases hres : vecElems fv i rest <;> simp [hres, Except.map]
  | @cons w a pre' as' hfw hrest ih =>
    rw [List.cons_append]
    simp only [vecElems, hfw, exceptMapError_ok]
    rw [ih (i + 1)]
    have hidx : i + 1 + pre'.length = i + (w :: pre').length := by
      simp only [List.length_cons]; omega
    rw [hidx]
    cases hres : vecElems fv (i + (w :: pre').length) rest <;> simp [hres, Except.map]

/-- C2 amended: when a nested extraction fails with a `ConversionError`, the
enclosing layer overwrites the error's path key with the current segment — a
failing `Vec` element gets its index segment `[i]`, a failing map entry's
VALUE gets the entry's key, a failing field of a derived struct gets the
field's resolved key — while a `ConversionError` arising from converting a
map entry's KEY propagates unmodified (its path key stays as produced), and
any error that is not a `ConversionError` is returned completely unmodified
by every layer. -/
theorem C2_amended_enrichment :
    (∀ (k t s seg : String),
        (Error.conversionError k t s).with_key seg = .conversionError seg t s) ∧
    (∀ (e : Error) (seg : String), e.is_conversion = false → e.with_key seg = e) ∧
    (∀ (α : Type) (fv : ConfigValue → Except Error α) (pre : List ConfigValue)
        (as : List α) (v : ConfigValue) (post : List ConfigValue) (k t s : String),
        List.Forall₂ (fun w a => fv w = .ok a) pre as →
        fv v = .error (.conversionError k t s) →
        vecFromValue fv (.array (pre ++ v :: post)) =
          .error (.conversionError ("[" ++ toString pre.length ++ "]") t s)) ∧
    (∀ (α : Type) (fv : ConfigValue → Except Error α) (pre : List ConfigValue)
        (as : List α) (v : ConfigValue) (post : List ConfigValue) (e : Error),
        List.Forall₂ (fun w a => fv w = .ok a) pre as →
        fv v = .error e → e.is_conversion = false →
        vecFromValue fv (.array (pre ++ v :: post)) = .error e) ∧
    (∀ (κ α : Type) (fvK : ConfigValue → Except Error κ)
        (fvV : ConfigValue → Except Error α) (k : String) (v : ConfigValue)
        (rest : List (String × ConfigValue)) (kk : κ) (k' t s : String),
        fvK (.string k) = .ok kk → fvV v = .error (.conversionError k' t s) →
        hashMapEntries fvK fvV ((k, v) :: rest) = .error (.conversionError k t s)) ∧
    (∀ (κ α : Type) (fvK : ConfigValue → Except Error κ)
        (fvV : ConfigValue → Except Error α) (k : String) (v : ConfigValue)
        (rest : List (String × ConfigValue)) (kk : κ) (e : Error),
        fvK (.string k) = .ok kk → fvV v = .error e → e.is_conversion = false →
        hashMapEntries fvK fvV ((k, v) :: rest) = .error e) ∧
    (∀ (κ α : Type) (fvK : ConfigValue → Except Error κ)
        (fvV : ConfigValue → Except Error α) (k : String) (v : ConfigValue)
        (rest : List (String × ConfigValue)) (e : Error),
        fvK (.string k) = .error e →
        hashMapEntries fvK fvV ((k, v) :: rest) = .error e) ∧
    (∀ (α : Type) (obj : List (String × ConfigValue)) (key : String)
        (fv : ConfigValue → Except Error α) (w : ConfigValue) (k' t s : String),
        objGet obj key = some w → fv w = .error (.conversionError k' t s) →
        extractField obj key fv = .error (.conversionError key t s)) ∧
    (∀ (α : Type) (obj : List (String × ConfigValue)) (key : String)
        (fv : ConfigValue → Except Error α) (w : ConfigValue) (e : Error),
        objGet obj key = some w → fv w = .error e → e.is_conversion = false →
        extractField obj key fv = .error e) := by
  refine ⟨fun _ _ _ _ => rfl, with_key_nonconv, ?_, ?_, ?_, ?_, ?_, ?_, ?_⟩
  · intro α fv pre as v post k t s hpre hv
    have h0 : vecFromValue fv (ConfigValue.array (pre ++ v :: post)) =
        vecElems fv 0 (pre ++ v :: post) := rfl
    rw [h0, vecElems_ok_prefix fv pre as (v :: post) 0 hpre]
    simp only [vecElems, hv, exceptMapError_error, Error.with_key, Nat.zero_add]
    simp [Except.map]
  · intro α fv pre as v post e hpre hv he
    have h0 : vecFromValue fv (ConfigValue.array (pre ++ v :: post)) =
        vecElems fv 0 (pre ++ v :: post) := rfl
    rw [h0, vecElems_ok_prefix fv pre as (v :: post) 0 hpre]
    simp only [vecElems, hv, exceptMapError_error, Nat.zero_add,
      with_key_nonconv e _ he]
    simp [Except.map]
  · intro κ α fvK fvV k v rest kk k' t s hk hv
    simp [hashMapEntries, hk, hv, exceptBind_ok, exceptBind_error,
      exceptMapError_error, Error.with_key]
  · intro κ α fvK fvV k v rest kk e hk hv he
    simp [hashMapEntries, hk, hv, exceptBind_ok, exceptBind_error,
      exceptMapError_error, with_key_nonconv e _ he]
  · intro κ α fvK fvV k v rest e hk
    simp [hashMapEntries, hk, exceptBind_error]
  · intro α obj key fv w k' t s hobj hv
    simp [extractField, hobj, hv, exceptMapError_error, Error.with_key]
  · intro α obj key fv w e hobj hv he
    simp [extractField, hobj, hv, exceptMapError_error, with_key_nonconv e _ he]

/-- C2 amended witness: the `Vec` conjunct instantiated at a one-element
array whose element fails as an `i64`. -/
theorem C2_amended_enrichment_witness :
    vecFromValue i64FromValue (.array [.string "x"]) =
      .error (.conversionError "[0]" "i64" "expected i64, found string") :=
  C2_amended_enrichment.2.2.1 Int i64FromValue [] [] (.string "x") []
    "" "i64" "expected i64, found string" List.Forall₂.nil rfl

end Prefer
